import Mathlib

/-!
Shallow embedding of the token ledger and balance subsystem of the
AI-VFX-Admin-Dashboard backend, translated from
`backend/app/routes/tokens.py`, `backend/app/services/audit.py` and the
reconciliation loop of `backend/app/seed.py`, together with theorems that
settle the frozen claims about this subsystem.

The database session is modelled as an explicit `DB` value holding the four
tables the claims touch (users, token_wallets, token_transactions,
audit_logs).  Each route handler becomes a pure function from a `DB` (and
the request arguments) to an updated `DB` paired with an `Except` result;
a raised `HTTPException` becomes an `.error` with the state unchanged, and
each `db.commit()` boundary of the source is kept visible so that claims
about durability and atomicity can be stated.
-/

namespace TokenLedger

/-- A row of the shared `users` table, restricted to the columns the token
routes read: the id and the status string (the routes treat the status value
"deleted" as a terminal removed state). -/
structure User where
  id : String
  status : String
  deriving DecidableEq, Repr

/-- A row of `token_wallets`: one wallet per user with a cached balance
(`models.py`, class TokenWallet). -/
structure TokenWallet where
  user_id : String
  balance : Int
  deriving DecidableEq, Repr

/-- A row of `token_transactions` (`models.py`, class TokenTransaction):
an immutable ledger entry with a signed amount. -/
structure TokenTransaction where
  user_id : String
  amount : Int
  type : String
  reason : Option String
  ref_type : Option String
  ref_id : Option String
  created_at : Nat
  created_by_admin_id : Option String
  deriving DecidableEq, Repr

/-- The `after_json` payload written by the grant path: the pair of the
granted amount and the reason (`tokens.py` line 144). -/
structure GrantAfterJson where
  amount : Int
  reason : String
  deriving DecidableEq, Repr

/-- A row of `audit_logs` (`models.py`, class AuditLog), restricted to the
columns the grant path writes. -/
structure AuditLog where
  actor_id : Option String
  action : String
  target_type : Option String
  target_id : Option String
  after_json : Option GrantAfterJson
  deriving DecidableEq, Repr

/-- The durable database state seen by the token routes. Lists are in
insertion order, matching row insertion order in the store. -/
structure DB where
  users : List User
  wallets : List TokenWallet
  transactions : List TokenTransaction
  audits : List AuditLog
  deriving DecidableEq, Repr

/-- The errors the token routes raise: HTTP 400 "Amount must be positive",
HTTP 404 "User not found", and a storage failure of the audit commit. -/
inductive ApiError where
  | invalidAmount
  | userNotFound
  | auditWriteFailed
  deriving DecidableEq, Repr

/-- Python `b or 0` applied to an integer column value: 0 is falsy, so the
result is always `b` for integer `b` (the source guards a NULL balance). -/
def pyOr0 (b : Int) : Int := if b = 0 then 0 else b

/-- `db.query(User).filter(User.id == user_id).first()`. -/
def findUser (db : DB) (user_id : String) : Option User :=
  db.users.find? (fun u => u.id == user_id)

/-- `db.query(TokenWallet).filter(TokenWallet.user_id == user_id).first()`. -/
def findWallet (db : DB) (user_id : String) : Option TokenWallet :=
  db.wallets.find? (fun w => w.user_id == user_id)

/-- `wallet.balance if wallet else 0` (`tokens.py` line 177): the balance a
read reports for a user, 0 when no wallet row exists. -/
def readBalance (db : DB) (user_id : String) : Int :=
  match findWallet db user_id with
  | some w => w.balance
  | none => 0

/-- Overwrite the balance of the wallet row of `user_id` (the effect of
assigning `wallet.balance` on the loaded row and committing). -/
def updateWalletBalance (ws : List TokenWallet) (user_id : String) (bal : Int) :
    List TokenWallet :=
  ws.map (fun w => if w.user_id == user_id then { w with balance := bal } else w)

/-- The check `not user or user.status == "deleted"` shared by
`_grant_tokens` (`tokens.py` lines 120..122) and `get_user_tokens`
(lines 173..175): true when the user row is missing or its status is the
terminal "deleted" state. -/
def userMissingOrDeleted (db : DB) (user_id : String) : Bool :=
  match findUser db user_id with
  | none => true
  | some user => user.status == "deleted"

/-- The TokenTransaction row built by `_grant_tokens` (`tokens.py`
lines 129..135). -/
def mkGrantTx (user_id : String) (amount : Int) (reason : String)
    (created_by_admin_id : String) (now : Nat) : TokenTransaction :=
  { user_id := user_id
    amount := amount
    type := "credit_grant"
    reason := some reason
    ref_type := none
    ref_id := none
    created_at := now
    created_by_admin_id := some created_by_admin_id }

/-- `create_audit_log` (`services/audit.py`): appends one AuditLog row and
commits it. -/
def create_audit_log (db : DB) (actor_id : Option String) (action : String)
    (target_type : Option String) (target_id : Option String)
    (after_json : Option GrantAfterJson) : DB :=
  { db with
      audits := db.audits ++
        [{ actor_id := actor_id
           action := action
           target_type := target_type
           target_id := target_id
           after_json := after_json }] }

/-- The ledger half of a grant after validation has passed (`tokens.py`
lines 123..137): load or create the wallet, set
`wallet.balance = (wallet.balance or 0) + amount`, append the credit_grant
transaction, and make both durable in the single commit of line 137. -/
def grantApplyLedger (db : DB) (user_id : String) (amount : Int) (reason : String)
    (created_by_admin_id : String) (now : Nat) : DB :=
  let wallets :=
    if (db.wallets.find? (fun w => w.user_id == user_id)).isSome then db.wallets
    else db.wallets ++ [{ user_id := user_id, balance := 0 }]
  let wallet :=
    (wallets.find? (fun w => w.user_id == user_id)).getD { user_id := user_id, balance := 0 }
  { db with
      wallets := updateWalletBalance wallets user_id (pyOr0 wallet.balance + amount)
      transactions := db.transactions ++ [mkGrantTx user_id amount reason created_by_admin_id now] }

/-- `_grant_tokens` (`tokens.py` lines 110..147): validate the amount and the
user, apply the ledger commit, then write the audit entry in its own commit. -/
def _grant_tokens (db : DB) (user_id : String) (amount : Int) (reason : String)
    (created_by_admin_id : String) (now : Nat) : DB × Except ApiError Unit :=
  if amount ≤ 0 then (db, .error .invalidAmount)
  else if userMissingOrDeleted db user_id then (db, .error .userNotFound)
  else
    let db1 := grantApplyLedger db user_id amount reason created_by_admin_id now
    let db2 := create_audit_log db1 (some created_by_admin_id) "tokens.grant"
      (some "user") (some user_id) (some { amount := amount, reason := reason })
    (db2, .ok ())

/-- `grant_user_tokens` (`tokens.py` lines 195..210): run `_grant_tokens`,
re-query the wallet and return its balance as `new_balance` (0 when the
wallet is still absent). -/
def grant_user_tokens (db : DB) (user_id : String) (amount : Int) (reason : String)
    (actor_id : String) (now : Nat) : DB × Except ApiError Int :=
  let r := _grant_tokens db user_id amount reason actor_id now
  match r.2 with
  | .error e => (r.1, .error e)
  | .ok _ => (r.1, .ok (readBalance r.1 user_id))

/-- The run of a grant in which the audit commit (the second commit, inside
`create_audit_log`) fails by a storage error: the ledger commit of
`tokens.py` line 137 has already made the wallet update and the transaction
durable, so the durable state on such a failure is `grantApplyLedger` of the
input. The validation branches are those of `_grant_tokens`. -/
def grantAuditFails (db : DB) (user_id : String) (amount : Int) (reason : String)
    (created_by_admin_id : String) (now : Nat) : DB × Except ApiError Unit :=
  if amount ≤ 0 then (db, .error .invalidAmount)
  else if userMissingOrDeleted db user_id then (db, .error .userNotFound)
  else
    (grantApplyLedger db user_id amount reason created_by_admin_id now,
     .error .auditWriteFailed)

/-- The durable states a call to `_grant_tokens` passes through, in order:
the input state, and (when validation passes) the state after the ledger
commit of line 137 and the state after the audit commit. -/
def grantDurableStates (db : DB) (user_id : String) (amount : Int) (reason : String)
    (created_by_admin_id : String) (now : Nat) : List DB :=
  if amount ≤ 0 then [db]
  else if userMissingOrDeleted db user_id then [db]
  else
    let db1 := grantApplyLedger db user_id amount reason created_by_admin_id now
    let db2 := create_audit_log db1 (some created_by_admin_id) "tokens.grant"
      (some "user") (some user_id) (some { amount := amount, reason := reason })
    [db, db1, db2]

/-- `sumByUser`: Σ amount over all transactions of a user, with the empty
sum read as 0 (`seed.py` lines 139..144, `sum(...) or 0`). -/
def sumByUser (db : DB) (user_id : String) : Int :=
  ((db.transactions.filter (fun t => t.user_id == user_id)).map (fun t => t.amount)).sum

/-- The reconciliation step of `seed.py` lines 135..146 for one user: when a
wallet row exists (`if w:`), write back `max(0, sumByUser(user_id))`; a user
with no wallet row is skipped. -/
def recomputeBalance (db : DB) (user_id : String) : DB :=
  if (findWallet db user_id).isSome then
    { db with wallets := updateWalletBalance db.wallets user_id (max 0 (sumByUser db user_id)) }
  else db

/-- A sequence of grant calls for one user, each applied to the state left
by the previous one (failed calls leave the state unchanged). Each entry is
the amount, the reason and the actor of one call. -/
def grantSeq (db : DB) (user_id : String) (calls : List (Int × String × String))
    (now : Nat) : DB :=
  calls.foldl (fun d c => (_grant_tokens d user_id c.1 c.2.1 c.2.2 now).1) db

/-- `total_issued` of `token_dashboard` (`tokens.py` lines 27..32): the sum
of the positive transaction amounts, with NULL read as 0. -/
def total_issued (db : DB) : Int :=
  pyOr0 ((db.transactions.filter (fun t => t.amount > 0)).map (fun t => t.amount)).sum

/-- `total_consumed` of `token_dashboard` (`tokens.py` lines 33..38): the
absolute value of the sum of the negative transaction amounts. -/
def total_consumed (db : DB) : Int :=
  |pyOr0 ((db.transactions.filter (fun t => t.amount < 0)).map (fun t => t.amount)).sum|

/-- `if user_id: q = q.filter(...)` (`tokens.py` lines 91..92): the filter is
applied only for a truthy value (None and the empty string are falsy). -/
def applyUserFilter (q : List TokenTransaction) (user_id : Option String) :
    List TokenTransaction :=
  match user_id with
  | some u => if u.isEmpty then q else q.filter (fun t => t.user_id == u)
  | none => q

/-- `if type_filter: q = q.filter(...)` (`tokens.py` lines 93..94). -/
def applyTypeFilter (q : List TokenTransaction) (type_filter : Option String) :
    List TokenTransaction :=
  match type_filter with
  | some ty => if ty.isEmpty then q else q.filter (fun t => t.type == ty)
  | none => q

/-- The comparator of `ORDER BY created_at DESC`. -/
def createdDesc (a b : TokenTransaction) : Bool :=
  b.created_at ≤ a.created_at

/-- One admissible evaluation of `order_by(created_at.desc())`: the stable
descending merge sort over rows in insertion order. The query has no
secondary sort key, so this picks one of the orders the store may return;
`OrderedByCreatedAtDesc` below is the set of all of them. -/
def sortByCreatedAtDesc (q : List TokenTransaction) : List TokenTransaction :=
  q.mergeSort createdDesc

/-- The semantics of `ORDER BY created_at DESC` with no secondary sort key
(`tokens.py` lines 97 and 181): the store may return any permutation of the
rows that is sorted by descending created_at; the relative order of rows
with equal created_at is not specified by the query. -/
def OrderedByCreatedAtDesc (rows sorted : List TokenTransaction) : Prop :=
  sorted.Perm rows ∧ sorted.Pairwise (fun x y => y.created_at ≤ x.created_at)

/-- The item lists the `/admin/tokens/ledger` route can return for the given
filters and page: one for each admissible evaluation of its ORDER BY, with
OFFSET `(page - 1) * limit` and LIMIT `limit` applied to that ordering
(`tokens.py` lines 96..101). -/
def tokenLedgerPossibleItems (db : DB) (page limit : Nat) (user_id : Option String)
    (type_filter : Option String) (items : List TokenTransaction) : Prop :=
  ∃ sorted,
    OrderedByCreatedAtDesc (applyTypeFilter (applyUserFilter db.transactions user_id)
      type_filter) sorted ∧
    items = (sorted.drop ((page - 1) * limit)).take limit

/-- The transaction lists the `/admin/users/.../tokens` read can report for
one user and page: one for each admissible evaluation of its ORDER BY
(`tokens.py` lines 178..184). -/
def userTokensPossibleTransactions (db : DB) (user_id : String) (page limit : Nat)
    (items : List TokenTransaction) : Prop :=
  ∃ sorted,
    OrderedByCreatedAtDesc (db.transactions.filter (fun t => t.user_id == user_id)) sorted ∧
    items = (sorted.drop ((page - 1) * limit)).take limit

/-- The response of the `/admin/tokens/ledger` route. -/
structure LedgerPage where
  items : List TokenTransaction
  total : Nat
  page : Nat
  limit : Nat
  deriving DecidableEq, Repr

/-- `token_ledger` (`tokens.py` lines 81..107): filter, count, then page the
rows ordered by created_at descending with offset `(page - 1) * limit` and
page size `limit`. The route accepts only `page ≥ 1` and
`1 ≤ limit ≤ 100`. -/
def token_ledger (db : DB) (page limit : Nat) (user_id : Option String)
    (type_filter : Option String) : LedgerPage :=
  let q := applyTypeFilter (applyUserFilter db.transactions user_id) type_filter
  { items := ((sortByCreatedAtDesc q).drop ((page - 1) * limit)).take limit
    total := q.length
    page := page
    limit := limit }

/-- The response of the `/admin/users/.../tokens` read route. -/
structure UserTokensPage where
  user_id : String
  balance : Int
  transactions : List TokenTransaction
  total_transactions : Nat
  page : Nat
  limit : Nat
  deriving DecidableEq, Repr

/-- `get_user_tokens` (`tokens.py` lines 165..192): a read-only route that
404s on a missing or deleted user, reports `wallet.balance if wallet else 0`
and the paginated transactions of the user ordered by created_at
descending. It performs no writes, so the state it returns is its input. -/
def get_user_tokens (db : DB) (user_id : String) (page limit : Nat) :
    DB × Except ApiError UserTokensPage :=
  if userMissingOrDeleted db user_id then (db, .error .userNotFound)
  else
    let tx_query := sortByCreatedAtDesc (db.transactions.filter (fun t => t.user_id == user_id))
    (db, .ok
      { user_id := user_id
        balance := readBalance db user_id
        transactions := (tx_query.drop ((page - 1) * limit)).take limit
        total_transactions := tx_query.length
        page := page
        limit := limit })

/-- The write-and-commit half of the read-modify-write of `_grant_tokens`
(`tokens.py` lines 128..137), with the balance that the session read at
line 123/128 passed in explicitly: the committed balance is computed from
that possibly stale read, and the transaction insert always succeeds. -/
def grantWriteCommit (db : DB) (user_id : String) (readBal : Int) (amount : Int)
    (reason : String) (created_by_admin_id : String) (now : Nat) : DB :=
  { db with
      wallets := updateWalletBalance db.wallets user_id (pyOr0 readBal + amount)
      transactions := db.transactions ++ [mkGrantTx user_id amount reason created_by_admin_id now] }

/-- The interleaving of two concurrent grant calls in which both sessions
read the wallet before either commits (schedule read1, read2, write1,
write2). Each call performs the read of line 123/128 and then the
write-and-commit of lines 128..137 against its stale read. -/
def twoGrantsRaceRRWW (db : DB) (user_id : String) (a1 a2 : Int)
    (r1 r2 act1 act2 : String) (now : Nat) : DB :=
  let b1 := readBalance db user_id
  let b2 := readBalance db user_id
  let d1 := grantWriteCommit db user_id b1 a1 r1 act1 now
  grantWriteCommit d1 user_id b2 a2 r2 act2 now

/-! ### Concrete fixtures used to instantiate the theorems -/

/-- Fixture: one active user with no wallet and an empty ledger. -/
def dbFreshUser : DB :=
  { users := [{ id := "u1", status := "active" }]
    wallets := []
    transactions := []
    audits := [] }

/-- Fixture: one active user holding a wallet with balance 0. -/
def dbZeroWallet : DB :=
  { users := [{ id := "u1", status := "active" }]
    wallets := [{ user_id := "u1", balance := 0 }]
    transactions := []
    audits := [] }

/-- Fixture: one active user with a wallet row and a single seeded
usage_debit of -50, an amount `seed.py` line 116 can produce. -/
def dbNegativeLedger : DB :=
  { users := [{ id := "u1", status := "active" }]
    wallets := [{ user_id := "u1", balance := 0 }]
    transactions := [{ user_id := "u1"
                       amount := -50
                       type := "usage_debit"
                       reason := some "Seeded data"
                       ref_type := some "seed"
                       ref_id := none
                       created_at := 0
                       created_by_admin_id := none }]
    audits := [] }

/-- Fixture: one user in the deleted state. -/
def dbDeletedUser : DB :=
  { users := [{ id := "u1", status := "deleted" }]
    wallets := []
    transactions := []
    audits := [] }

/-- Fixture: the dashboard example ledger with amounts 100, -30, 50, -20. -/
def dbDashboardExample : DB :=
  { users := [{ id := "u1", status := "active" }]
    wallets := []
    transactions :=
      [{ user_id := "u1"
         amount := 100
         type := "credit_grant"
         reason := none
         ref_type := none
         ref_id := none
         created_at := 1
         created_by_admin_id := none },
       { user_id := "u1"
         amount := -30
         type := "usage_debit"
         reason := none
         ref_type := none
         ref_id := none
         created_at := 2
         created_by_admin_id := none },
       { user_id := "u1"
         amount := 50
         type := "credit_grant"
         reason := none
         ref_type := none
         ref_id := none
         created_at := 3
         created_by_admin_id := none },
       { user_id := "u1"
         amount := -20
         type := "usage_debit"
         reason := none
         ref_type := none
         ref_id := none
         created_at := 4
         created_by_admin_id := none }]
    audits := [] }

/-- Fixture transaction with the earliest timestamp. -/
def txEarly : TokenTransaction :=
  { user_id := "u1"
    amount := 10
    type := "credit_grant"
    reason := some "t1"
    ref_type := none
    ref_id := none
    created_at := 5
    created_by_admin_id := none }

/-- Fixture transaction inserted first of the two sharing created_at 7. -/
def txTieFirst : TokenTransaction :=
  { user_id := "u1"
    amount := 20
    type := "purchase"
    reason := some "t2"
    ref_type := none
    ref_id := none
    created_at := 7
    created_by_admin_id := none }

/-- Fixture transaction inserted second of the two sharing created_at 7. -/
def txTieSecond : TokenTransaction :=
  { user_id := "u1"
    amount := 30
    type := "credit_grant"
    reason := some "t3"
    ref_type := none
    ref_id := none
    created_at := 7
    created_by_admin_id := none }

/-- Fixture transaction with the middle timestamp. -/
def txMid : TokenTransaction :=
  { user_id := "u1"
    amount := -40
    type := "usage_debit"
    reason := some "t4"
    ref_type := none
    ref_id := none
    created_at := 6
    created_by_admin_id := none }

/-- Fixture: four transactions in insertion order, two of them sharing a
timestamp, for the pagination claims. -/
def dbPagination : DB :=
  { users := [{ id := "u1", status := "active" }]
    wallets := []
    transactions := [txEarly, txTieFirst, txTieSecond, txMid]
    audits := [] }

/-! ### Helper lemmas -/

theorem pyOr0_eq (b : Int) : pyOr0 b = b := by
  unfold pyOr0
  split
  · omega
  · rfl

theorem find?_updateWalletBalance (ws : List TokenWallet) (uid : String) (b : Int) :
    (updateWalletBalance ws uid b).find? (fun w => w.user_id == uid) =
      (ws.find? (fun w => w.user_id == uid)).map (fun w => { w with balance := b }) := by
  unfold updateWalletBalance
  induction ws with
  | nil => rfl
  | cons w ws ih =>
    by_cases h : w.user_id = uid
    · have hb : (w.user_id == uid) = true := by simp [h]
      have hfw : (if (w.user_id == uid) then ({ w with balance := b } : TokenWallet) else w)
          = { w with balance := b } := by simp [hb]
      simp only [List.map_cons, hfw, List.find?_cons, hb]
      simp [hb]
    · have hb : (w.user_id == uid) = false := by simp [h]
      have hfw : (if (w.user_id == uid) then ({ w with balance := b } : TokenWallet) else w)
          = w := by simp [hb]
      simp only [List.map_cons, hfw, List.find?_cons, hb]
      simpa [hb] using ih

theorem findWallet_grantApplyLedger (db : DB) (uid : String) (a : Int) (r act : String)
    (now : Nat) :
    findWallet (grantApplyLedger db uid a r act now) uid =
      some { user_id := uid, balance := readBalance db uid + a } := by
  cases h : findWallet db uid with
  | some w =>
    have hw : db.wallets.find? (fun x => x.user_id == uid) = some w := h
    have hid : w.user_id = uid := by simpa using List.find?_some hw
    have hrb : readBalance db uid = w.balance := by unfold readBalance; rw [h]
    unfold findWallet grantApplyLedger
    simp only [hw, Option.isSome_some, if_true, Option.getD_some, find?_updateWalletBalance,
      Option.map_some, hrb, pyOr0_eq, hid]
    simp [hid]
  | none =>
    have hw : db.wallets.find? (fun x => x.user_id == uid) = none := h
    have hrb : readBalance db uid = 0 := by unfold readBalance; rw [h]
    unfold findWallet grantApplyLedger
    simp only [hw, Option.isSome_none, Bool.false_eq_true, if_false, find?_updateWalletBalance,
      List.find?_append, Option.none_or, pyOr0_eq, hrb]
    simp [pyOr0_eq]

theorem readBalance_grantApplyLedger (db : DB) (uid : String) (a : Int) (r act : String)
    (now : Nat) :
    readBalance (grantApplyLedger db uid a r act now) uid = readBalance db uid + a := by
  unfold readBalance
  rw [findWallet_grantApplyLedger]
  rfl

theorem readBalance_create_audit_log (db : DB) (actor : Option String) (action : String)
    (tt ti : Option String) (aj : Option GrantAfterJson) (uid : String) :
    readBalance (create_audit_log db actor action tt ti aj) uid = readBalance db uid := rfl

theorem sumByUser_grantApplyLedger (db : DB) (uid : String) (a : Int) (r act : String)
    (now : Nat) :
    sumByUser (grantApplyLedger db uid a r act now) uid = sumByUser db uid + a := by
  unfold sumByUser grantApplyLedger mkGrantTx
  simp [List.filter_append]

theorem sumByUser_create_audit_log (db : DB) (actor : Option String) (action : String)
    (tt ti : Option String) (aj : Option GrantAfterJson) (uid : String) :
    sumByUser (create_audit_log db actor action tt ti aj) uid = sumByUser db uid := rfl

theorem userMissingOrDeleted_eq_false (db : DB) (uid : String) (u : User)
    (hu : findUser db uid = some u) (hs : u.status ≠ "deleted") :
    userMissingOrDeleted db uid = false := by
  unfold userMissingOrDeleted
  rw [hu]
  simp [hs]

theorem _grant_tokens_success (db : DB) (uid : String) (a : Int) (r act : String)
    (now : Nat) (hmd : userMissingOrDeleted db uid = false) (ha : 0 < a) :
    _grant_tokens db uid a r act now =
      (create_audit_log (grantApplyLedger db uid a r act now) (some act) "tokens.grant"
        (some "user") (some uid) (some { amount := a, reason := r }), .ok ()) := by
  unfold _grant_tokens
  rw [if_neg (by omega), if_neg (by simp [hmd])]

theorem _grant_tokens_error_fst (db : DB) (uid : String) (a : Int) (r act : String)
    (now : Nat) (e : ApiError)
    (h : (_grant_tokens db uid a r act now).2 = .error e) :
    (_grant_tokens db uid a r act now).1 = db := by
  unfold _grant_tokens at h ⊢
  by_cases h1 : a ≤ 0
  · rw [if_pos h1]
  · rw [if_neg h1] at h ⊢
    by_cases h2 : (userMissingOrDeleted db uid : Bool)
    · rw [if_pos h2]
    · rw [if_neg h2] at h
      simp at h

theorem _grant_tokens_fst_cases (db : DB) (uid : String) (a : Int) (r act : String)
    (now : Nat) :
    (_grant_tokens db uid a r act now).1 = db ∨
      (0 < a ∧ (_grant_tokens db uid a r act now).1 =
        create_audit_log (grantApplyLedger db uid a r act now) (some act) "tokens.grant"
          (some "user") (some uid) (some { amount := a, reason := r })) := by
  unfold _grant_tokens
  by_cases h1 : a ≤ 0
  · left
    rw [if_pos h1]
  · rw [if_neg h1]
    by_cases h2 : (userMissingOrDeleted db uid : Bool)
    · left
      rw [if_pos h2]
    · right
      exact ⟨by omega, by rw [if_neg h2]⟩

theorem transactions_grantApplyLedger (db : DB) (uid : String) (a : Int) (r act : String)
    (now : Nat) :
    (grantApplyLedger db uid a r act now).transactions =
      db.transactions ++ [mkGrantTx uid a r act now] := rfl

theorem audits_grantApplyLedger (db : DB) (uid : String) (a : Int) (r act : String)
    (now : Nat) :
    (grantApplyLedger db uid a r act now).audits = db.audits := rfl

theorem users_grantApplyLedger (db : DB) (uid : String) (a : Int) (r act : String)
    (now : Nat) :
    (grantApplyLedger db uid a r act now).users = db.users := rfl

theorem findWallet_create_audit_log (db : DB) (actor : Option String) (action : String)
    (tt ti : Option String) (aj : Option GrantAfterJson) (uid : String) :
    findWallet (create_audit_log db actor action tt ti aj) uid = findWallet db uid := rfl

theorem transactions_create_audit_log (db : DB) (actor : Option String) (action : String)
    (tt ti : Option String) (aj : Option GrantAfterJson) :
    (create_audit_log db actor action tt ti aj).transactions = db.transactions := rfl

theorem audits_create_audit_log (db : DB) (actor : Option String) (action : String)
    (tt ti : Option String) (aj : Option GrantAfterJson) :
    (create_audit_log db actor action tt ti aj).audits =
      db.audits ++ [{ actor_id := actor
                      action := action
                      target_type := tt
                      target_id := ti
                      after_json := aj }] := rfl

theorem readBalance_recomputeBalance (db : DB) (uid : String) (w : TokenWallet)
    (h : findWallet db uid = some w) :
    readBalance (recomputeBalance db uid) uid = max 0 (sumByUser db uid) := by
  unfold recomputeBalance
  rw [if_pos (by rw [h]; rfl)]
  unfold readBalance findWallet
  rw [show ({ db with
      wallets := updateWalletBalance db.wallets uid (max 0 (sumByUser db uid)) } : DB).wallets
    = updateWalletBalance db.wallets uid (max 0 (sumByUser db uid)) from rfl]
  rw [find?_updateWalletBalance, show db.wallets.find? (fun x => x.user_id == uid) = some w from h]
  rfl

theorem grantInvariant_step (db : DB) (uid : String) (a : Int) (r act : String) (now : Nat)
    (h1 : readBalance db uid = sumByUser db uid) (h2 : 0 ≤ sumByUser db uid) :
    readBalance (_grant_tokens db uid a r act now).1 uid =
      sumByUser (_grant_tokens db uid a r act now).1 uid ∧
    0 ≤ sumByUser (_grant_tokens db uid a r act now).1 uid := by
  rcases _grant_tokens_fst_cases db uid a r act now with h | ⟨ha, h⟩
  · rw [h]
    exact ⟨h1, h2⟩
  · rw [h, readBalance_create_audit_log, sumByUser_create_audit_log,
      readBalance_grantApplyLedger, sumByUser_grantApplyLedger, h1]
    omega

theorem grantSeq_invariant (db : DB) (uid : String)
    (calls : List (Int × String × String)) (now : Nat)
    (h1 : readBalance db uid = sumByUser db uid) (h2 : 0 ≤ sumByUser db uid) :
    readBalance (grantSeq db uid calls now) uid = sumByUser (grantSeq db uid calls now) uid ∧
    0 ≤ sumByUser (grantSeq db uid calls now) uid := by
  induction calls generalizing db with
  | nil => exact ⟨h1, h2⟩
  | cons c cs ih =>
    have step := grantInvariant_step db uid c.1 c.2.1 c.2.2 now h1 h2
    exact ih _ step.1 step.2

theorem sum_nonpos_of_forall_nonpos (l : List Int) (h : ∀ x ∈ l, x ≤ 0) :
    l.sum ≤ 0 := by
  induction l with
  | nil => simp
  | cons x xs ih =>
    simp only [List.sum_cons]
    have hx := h x (by simp)
    have hxs := ih (fun y hy => h y (by simp [hy]))
    omega

theorem createdDesc_trans : ∀ a b c : TokenTransaction,
    createdDesc a b = true → createdDesc b c = true → createdDesc a c = true := by
  intro a b c hab hbc
  simp only [createdDesc, decide_eq_true_eq] at *
  omega

theorem createdDesc_total : ∀ a b : TokenTransaction,
    (createdDesc a b || createdDesc b a) = true := by
  intro a b
  simp only [createdDesc, Bool.or_eq_true, decide_eq_true_eq]
  omega

theorem sortByCreatedAtDesc_sorted (q : List TokenTransaction) :
    (sortByCreatedAtDesc q).Pairwise (fun x y => y.created_at ≤ x.created_at) := by
  have h := List.sorted_mergeSort createdDesc_trans createdDesc_total q
  exact h.imp (fun hx => by simpa [createdDesc] using hx)

theorem possible_page_spec (q sorted items : List TokenTransaction) (page limit : Nat)
    (hperm : sorted.Perm q)
    (hsort : sorted.Pairwise (fun x y => y.created_at ≤ x.created_at))
    (heq : items = (sorted.drop ((page - 1) * limit)).take limit) :
    items.length ≤ limit ∧
    items.Pairwise (fun x y => y.created_at ≤ x.created_at) ∧
    ∀ t ∈ items, t ∈ q := by
  subst heq
  refine ⟨?_, ?_, ?_⟩
  · rw [List.length_take]
    exact min_le_left _ _
  · exact List.Pairwise.sublist ((List.take_sublist _ _).trans (List.drop_sublist _ _)) hsort
  · intro t ht
    have hmem : t ∈ sorted := ((List.take_sublist _ _).trans (List.drop_sublist _ _)).subset ht
    exact hperm.mem_iff.mp hmem

theorem grantApplyLedger_eq_writeCommit (db : DB) (uid : String) (a : Int)
    (r act : String) (now : Nat) (w : TokenWallet) (hw : findWallet db uid = some w) :
    grantApplyLedger db uid a r act now =
      grantWriteCommit db uid (readBalance db uid) a r act now := by
  unfold grantApplyLedger grantWriteCommit
  rw [show db.wallets.find? (fun x => x.user_id == uid) = some w from hw]
  simp only [Option.isSome_some, if_true]
  rw [show db.wallets.find? (fun x => x.user_id == uid) = some w from hw]
  simp only [Option.getD_some]
  unfold readBalance
  rw [hw]

/-! ### Claims -/

/-- C2: for every existing, non-deleted user and every amount > 0,
grant(user_id, amount, reason, actor_id) leaves the wallet of the user at
its previous read balance plus amount (a wallet absent before is created
with balance 0 and then incremented, so its balance is amount), appends
exactly one credit_grant transaction created by the actor, writes exactly
one audit entry with action tokens.grant and after_json holding the amount
and the reason, and returns the new balance. -/
theorem C2_grant_effects (db : DB) (uid : String) (a : Int) (r act : String) (now : Nat)
    (u : User) (hu : findUser db uid = some u) (hs : u.status ≠ "deleted") (ha : 0 < a) :
    (grant_user_tokens db uid a r act now).2 = .ok (readBalance db uid + a) ∧
    findWallet (grant_user_tokens db uid a r act now).1 uid =
      some { user_id := uid, balance := readBalance db uid + a } ∧
    (grant_user_tokens db uid a r act now).1.transactions =
      db.transactions ++ [mkGrantTx uid a r act now] ∧
    (grant_user_tokens db uid a r act now).1.audits =
      db.audits ++ [{ actor_id := some act
                      action := "tokens.grant"
                      target_type := some "user"
                      target_id := some uid
                      after_json := some { amount := a, reason := r } }] := by
  have hmd := userMissingOrDeleted_eq_false db uid u hu hs
  have hg := _grant_tokens_success db uid a r act now hmd ha
  have heq : grant_user_tokens db uid a r act now =
      (create_audit_log (grantApplyLedger db uid a r act now) (some act) "tokens.grant"
        (some "user") (some uid) (some { amount := a, reason := r }),
       .ok (readBalance (grantApplyLedger db uid a r act now) uid)) := by
    unfold grant_user_tokens
    rw [hg]
    rfl
  rw [heq]
  refine ⟨?_, ?_, ?_, ?_⟩
  · rw [readBalance_grantApplyLedger]
  · rw [findWallet_create_audit_log, findWallet_grantApplyLedger]
  · rw [transactions_create_audit_log, transactions_grantApplyLedger]
  · rw [audits_create_audit_log, audits_grantApplyLedger]

/-- Witness for C2: granting 100 to the fresh user u1 returns balance 100,
creates the wallet, and appends the transaction and the audit entry. -/
theorem C2_grant_effects_witness :
    (grant_user_tokens dbFreshUser "u1" 100 "signup bonus" "admin-1" 3).2 = .ok 100 ∧
    findWallet (grant_user_tokens dbFreshUser "u1" 100 "signup bonus" "admin-1" 3).1 "u1" =
      some { user_id := "u1", balance := 100 } := by
  have h := C2_grant_effects dbFreshUser "u1" 100 "signup bonus" "admin-1" 3
    { id := "u1", status := "active" } (by decide) (by decide) (by decide)
  refine ⟨?_, ?_⟩
  · rw [h.1, show readBalance dbFreshUser "u1" + 100 = 100 from by decide]
  · rw [h.2.1]
    decide

/-- C5: for every user_id and every amount ≤ 0 the grant fails with the
InvalidAmount error (HTTP 400) and no wallet, transaction or audit entry is
created or modified: the state returned is exactly the input state. -/
theorem C5_reject_nonpositive_amount (db : DB) (uid : String) (a : Int) (r act : String)
    (now : Nat) (ha : a ≤ 0) :
    _grant_tokens db uid a r act now = (db, .error .invalidAmount) := by
  unfold _grant_tokens
  rw [if_pos ha]

/-- Witness for C5 at amount 0 and amount -5. -/
theorem C5_reject_nonpositive_amount_witness :
    _grant_tokens dbFreshUser "u1" 0 "test" "actor-1" 0 =
      (dbFreshUser, .error .invalidAmount) ∧
    _grant_tokens dbFreshUser "u1" (-5) "test" "actor-1" 0 =
      (dbFreshUser, .error .invalidAmount) :=
  ⟨C5_reject_nonpositive_amount dbFreshUser "u1" 0 "test" "actor-1" 0 (by decide),
   C5_reject_nonpositive_amount dbFreshUser "u1" (-5) "test" "actor-1" 0 (by decide)⟩

/-- C6: for every user_id naming no user or naming a deleted user, a grant
of any positive amount fails with the UserNotFound error (HTTP 404) and has
no side effects: the state returned is exactly the input state. -/
theorem C6_reject_missing_user (db : DB) (uid : String) (a : Int) (r act : String)
    (now : Nat) (ha : 0 < a)
    (h : findUser db uid = none ∨ ∃ u, findUser db uid = some u ∧ u.status = "deleted") :
    _grant_tokens db uid a r act now = (db, .error .userNotFound) := by
  have hmd : userMissingOrDeleted db uid = true := by
    unfold userMissingOrDeleted
    rcases h with h | ⟨u, hu, hst⟩
    · rw [h]
    · rw [hu]
      simp [hst]
  unfold _grant_tokens
  rw [if_neg (by omega), if_pos hmd]

/-- Witness for C6: a nonexistent id and a deleted user both 404 with no
side effects. -/
theorem C6_reject_missing_user_witness :
    _grant_tokens dbFreshUser "nonexistent-id" 100 "test" "actor-1" 0 =
      (dbFreshUser, .error .userNotFound) ∧
    _grant_tokens dbDeletedUser "u1" 100 "test" "actor-1" 0 =
      (dbDeletedUser, .error .userNotFound) :=
  ⟨C6_reject_missing_user dbFreshUser "nonexistent-id" 100 "test" "actor-1" 0 (by decide)
     (Or.inl (by decide)),
   C6_reject_missing_user dbDeletedUser "u1" 100 "test" "actor-1" 0 (by decide)
     (Or.inr ⟨{ id := "u1", status := "deleted" }, by decide, rfl⟩)⟩

/-- C9: for every existing, non-deleted user with no wallet row, the
tokens read succeeds reporting balance 0 and leaves the state (hence the
wallet table) exactly unchanged: reads never create a wallet. -/
theorem C9_read_without_wallet (db : DB) (uid : String) (page limit : Nat)
    (u : User) (hu : findUser db uid = some u) (hs : u.status ≠ "deleted")
    (hw : findWallet db uid = none) :
    (get_user_tokens db uid page limit).1 = db ∧
    ∃ out, (get_user_tokens db uid page limit).2 = .ok out ∧ out.balance = 0 := by
  have hmd := userMissingOrDeleted_eq_false db uid u hu hs
  unfold get_user_tokens
  rw [if_neg (by simp [hmd])]
  refine ⟨rfl, _, rfl, ?_⟩
  show readBalance db uid = 0
  unfold readBalance
  rw [hw]

/-- Witness for C9: reading tokens of the fresh user u1 (who has no wallet)
succeeds with balance 0 and does not change the state. -/
theorem C9_read_without_wallet_witness :
    (get_user_tokens dbFreshUser "u1" 1 20).1 = dbFreshUser ∧
    ∃ out, (get_user_tokens dbFreshUser "u1" 1 20).2 = .ok out ∧ out.balance = 0 :=
  C9_read_without_wallet dbFreshUser "u1" 1 20 { id := "u1", status := "active" }
    (by decide) (by decide) (by decide)

/-- C10: the tokens read itself fails with the UserNotFound error when the
user is missing or deleted, returning no balance or transaction data and
leaving the state unchanged. -/
theorem C10_read_user_not_found (db : DB) (uid : String) (page limit : Nat)
    (h : findUser db uid = none ∨ ∃ u, findUser db uid = some u ∧ u.status = "deleted") :
    get_user_tokens db uid page limit = (db, .error .userNotFound) := by
  have hmd : userMissingOrDeleted db uid = true := by
    unfold userMissingOrDeleted
    rcases h with h | ⟨u, hu, hst⟩
    · rw [h]
    · rw [hu]
      simp [hst]
  unfold get_user_tokens
  rw [if_pos hmd]

/-- Witness for C10: reading tokens of a deleted user 404s. -/
theorem C10_read_user_not_found_witness :
    get_user_tokens dbDeletedUser "u1" 1 20 = (dbDeletedUser, .error .userNotFound) :=
  C10_read_user_not_found dbDeletedUser "u1" 1 20
    (Or.inr ⟨{ id := "u1", status := "deleted" }, by decide, rfl⟩)

/-- C1 counterexample: starting from the seeded ledger of u1 holding one
usage_debit of -50, reconciliation clamps the cached balance to 0; a
following grant of 100 (a sequence of operations the code permits) leaves
the cached balance at 100 while max(0, Σ transaction amounts) = 50, so the
claimed conservation equation fails after this sequence of operations. -/
theorem C1_conservation_counterexample :
    readBalance (_grant_tokens (recomputeBalance dbNegativeLedger "u1") "u1" 100 "bonus"
        "admin-1" 9).1 "u1" = 100 ∧
    max 0 (sumByUser (_grant_tokens (recomputeBalance dbNegativeLedger "u1") "u1" 100 "bonus"
        "admin-1" 9).1 "u1") = 50 ∧
    ¬ readBalance (_grant_tokens (recomputeBalance dbNegativeLedger "u1") "u1" 100 "bonus"
        "admin-1" 9).1 "u1" =
      max 0 (sumByUser (_grant_tokens (recomputeBalance dbNegativeLedger "u1") "u1" 100 "bonus"
        "admin-1" 9).1 "u1") := by
  decide

/-- C1 amended: recomputeBalance(user) writes back exactly
max(0, sumByUser(user)) whenever the user has a wallet row; and after any
sequence of grant calls starting from a state whose cached balance equals a
nonnegative ledger sum (a fresh user in particular), the cached balance
equals max(0, Σ transaction amounts). A grant applied after reconciliation
has clamped a negative ledger sum breaks the equation until the next
reconciliation, as the counterexample records. -/
theorem C1_conservation_amended :
    (∀ db uid w, findWallet db uid = some w →
      readBalance (recomputeBalance db uid) uid = max 0 (sumByUser db uid)) ∧
    (∀ db uid calls now, readBalance db uid = sumByUser db uid →
      0 ≤ sumByUser db uid →
      readBalance (grantSeq db uid calls now) uid =
        max 0 (sumByUser (grantSeq db uid calls now) uid)) := by
  constructor
  · exact fun db uid w hw => readBalance_recomputeBalance db uid w hw
  · intro db uid calls now h1 h2
    obtain ⟨e1, e2⟩ := grantSeq_invariant db uid calls now h1 h2
    rw [e1, max_eq_right e2]

/-- Witness for C1 at concrete inputs: reconciliation of the seeded user,
and one grant against the fresh user. -/
theorem C1_conservation_amended_witness :
    readBalance (recomputeBalance dbNegativeLedger "u1") "u1" =
      max 0 (sumByUser dbNegativeLedger "u1") ∧
    readBalance (grantSeq dbFreshUser "u1" [(100, "signup bonus", "admin-1")] 3) "u1" =
      max 0 (sumByUser (grantSeq dbFreshUser "u1" [(100, "signup bonus", "admin-1")] 3) "u1") :=
  ⟨C1_conservation_amended.1 dbNegativeLedger "u1" { user_id := "u1", balance := 0 } (by decide),
   C1_conservation_amended.2 dbFreshUser "u1" [(100, "signup bonus", "admin-1")] 3 (by decide)
     (by decide)⟩

/-- C3 counterexample: a grant whose audit commit fails is a failed grant,
yet the wallet and the ledger are not left as before the call: the commit
of tokens.py line 137 already made the new transaction and the balance 100
durable while the audit table is unchanged — the audit write is a separate
later commit, not part of the same atomic unit. -/
theorem C3_atomicity_counterexample :
    (grantAuditFails dbFreshUser "u1" 100 "signup bonus" "admin-1" 3).2 =
      .error .auditWriteFailed ∧
    ¬ (grantAuditFails dbFreshUser "u1" 100 "signup bonus" "admin-1" 3).1 = dbFreshUser ∧
    (grantAuditFails dbFreshUser "u1" 100 "signup bonus" "admin-1" 3).1.transactions.length =
      dbFreshUser.transactions.length + 1 ∧
    readBalance (grantAuditFails dbFreshUser "u1" 100 "signup bonus" "admin-1" 3).1 "u1" = 100 ∧
    (grantAuditFails dbFreshUser "u1" 100 "signup bonus" "admin-1" 3).1.audits =
      dbFreshUser.audits :=
  ⟨rfl, by decide, by decide, by decide, by decide⟩

/-- C3 amended: a grant that fails validation leaves the state exactly as
before the call, and in every durable state of a grant the wallet update
and the transaction append appear together — never one without the other;
the audit entry however becomes durable only with a second, later commit,
after the wallet/ledger changes are already durable, so a failure of the
audit write leaves them changed with no audit entry (see the
counterexample). -/
theorem C3_atomicity_amended (db : DB) (uid : String) (a : Int) (r act : String)
    (now : Nat) :
    (∀ e, (_grant_tokens db uid a r act now).2 = .error e →
      (_grant_tokens db uid a r act now).1 = db) ∧
    (∀ s, s ∈ grantDurableStates db uid a r act now →
      s = db ∨
      (s.transactions = db.transactions ++ [mkGrantTx uid a r act now] ∧
       readBalance s uid = readBalance db uid + a)) := by
  constructor
  · exact fun e he => _grant_tokens_error_fst db uid a r act now e he
  · intro s hs
    unfold grantDurableStates at hs
    by_cases h1 : a ≤ 0
    · rw [if_pos h1] at hs
      simp only [List.mem_singleton] at hs
      exact Or.inl hs
    · rw [if_neg h1] at hs
      by_cases h2 : (userMissingOrDeleted db uid : Bool)
      · rw [if_pos h2] at hs
        simp only [List.mem_singleton] at hs
        exact Or.inl hs
      · rw [if_neg h2] at hs
        simp only [List.mem_cons, List.mem_singleton, List.not_mem_nil, or_false] at hs
        rcases hs with rfl | rfl | rfl
        · exact Or.inl rfl
        · exact Or.inr ⟨transactions_grantApplyLedger db uid a r act now,
            readBalance_grantApplyLedger db uid a r act now⟩
        · refine Or.inr ⟨?_, ?_⟩
          · rw [transactions_create_audit_log, transactions_grantApplyLedger]
          · rw [readBalance_create_audit_log, readBalance_grantApplyLedger]

/-- Witness for C3 amended: a rejected grant leaves the fresh state
unchanged, and the input state itself is one of the durable states of a
successful grant. -/
theorem C3_atomicity_amended_witness :
    (_grant_tokens dbFreshUser "u1" 0 "test" "actor-1" 0).1 = dbFreshUser ∧
    (dbFreshUser = dbFreshUser ∨
      (dbFreshUser.transactions =
        dbFreshUser.transactions ++ [mkGrantTx "u1" 100 "signup bonus" "admin-1" 3] ∧
       readBalance dbFreshUser "u1" = readBalance dbFreshUser "u1" + 100)) :=
  ⟨(C3_atomicity_amended dbFreshUser "u1" 0 "test" "actor-1" 0).1 .invalidAmount rfl,
   (C3_atomicity_amended dbFreshUser "u1" 100 "signup bonus" "admin-1" 3).2 dbFreshUser
     (by decide)⟩

/-- C4: the lost-update race of the read-then-write grant path: two
concurrent grants of 100 and 50 against the fresh user u1 with wallet
balance 0, interleaved so that both sessions read the balance before
either commits, leave a final balance of 50 with exactly 2 transactions
recorded — the first update is lost, instead of the claimed final balance
Σ amounts = 150 with 2 transactions. -/
theorem C4_concurrent_grants_lose_update :
    readBalance (twoGrantsRaceRRWW dbZeroWallet "u1" 100 50 "g1" "g2" "a1" "a2" 7) "u1" = 50 ∧
    (twoGrantsRaceRRWW dbZeroWallet "u1" 100 50 "g1" "g2" "a1" "a2" 7).transactions.length = 2 ∧
    ¬ readBalance (twoGrantsRaceRRWW dbZeroWallet "u1" 100 50 "g1" "g2" "a1" "a2" 7) "u1" =
        100 + 50 := by
  decide

/-- C7: the dashboard aggregate: total_issued is the sum of the positive
transaction amounts and total_consumed the absolute value of the sum of
the negative ones (equivalently, the sum of their magnitudes); on the
ledger with amounts 100, -30, 50, -20 they are 150 and 50. -/
theorem C7_dashboard_totals :
    (∀ db : DB,
      total_issued db =
        ((db.transactions.filter (fun t => t.amount > 0)).map (fun t => t.amount)).sum ∧
      total_consumed db =
        |((db.transactions.filter (fun t => t.amount < 0)).map (fun t => t.amount)).sum| ∧
      total_consumed db =
        ((db.transactions.filter (fun t => t.amount < 0)).map (fun t => -t.amount)).sum) ∧
    total_issued dbDashboardExample = 150 ∧
    total_consumed dbDashboardExample = 50 := by
  refine ⟨fun db => ⟨?_, ?_, ?_⟩, by decide, by decide⟩
  · unfold total_issued
    rw [pyOr0_eq]
  · unfold total_consumed
    rw [pyOr0_eq]
  · unfold total_consumed
    rw [pyOr0_eq]
    have hle :
        ((db.transactions.filter (fun t => t.amount < 0)).map (fun t => t.amount)).sum ≤ 0 := by
      apply sum_nonpos_of_forall_nonpos
      intro x hx
      simp only [List.mem_map] at hx
      obtain ⟨t, ht, rfl⟩ := hx
      have hp := List.of_mem_filter ht
      simp only [decide_eq_true_eq] at hp
      omega
    rw [abs_of_nonpos hle, List.sum_neg, List.map_map]
    rfl

/-- C8 counterexample: the query `ORDER BY created_at DESC` of the ledger
reads carries no secondary sort key, so with rows inserted in the order
txEarly, txTieFirst, txTieSecond, txMid the ordering
[txTieSecond, txTieFirst, txMid, txEarly] is an admissible result of the
query, and the first page then shows the two rows tied at created_at = 7 in
reversed insertion order — not equal to the insertion-order-stable page the
claim mandates. -/
theorem C8_pagination_counterexample :
    tokenLedgerPossibleItems dbPagination 1 100 none none
      [txTieSecond, txTieFirst, txMid, txEarly] ∧
    txTieFirst.created_at = txTieSecond.created_at ∧
    [txTieFirst, txTieSecond].Sublist dbPagination.transactions ∧
    ¬ [txTieFirst, txTieSecond].Sublist [txTieSecond, txTieFirst, txMid, txEarly] := by
  refine ⟨⟨[txTieSecond, txTieFirst, txMid, txEarly], ⟨?_, ?_⟩, ?_⟩, ?_, ?_, ?_⟩
  · decide
  · decide
  · decide
  · decide
  · decide
  · decide

/-- C8 amended: for page ≥ 1 and limit in [1,100], each paginated ledger
read returns a page of some admissible evaluation of its ORDER BY — a
permutation of the filtered transactions sorted by created_at descending,
with exactly (page-1)*limit rows of that ordering skipped — so every result
holds at most limit rows, is ordered by created_at descending, and draws
only from the filtered transactions; the relative order of rows with equal
created_at is unspecified by the query (no secondary sort key), so
insertion-order tie-breaking is not guaranteed (see the counterexample).
The deterministic route functions of this file realise one admissible
evaluation. -/
theorem C8_pagination_amended (db : DB) (page limit : Nat) (uf tf : Option String)
    (uid : String) (u : User) (items : List TokenTransaction)
    (hp : 1 ≤ page) (hl1 : 1 ≤ limit) (hl2 : limit ≤ 100)
    (hu : findUser db uid = some u) (hs : u.status ≠ "deleted") :
    (tokenLedgerPossibleItems db page limit uf tf items →
      items.length ≤ limit ∧
      items.Pairwise (fun x y => y.created_at ≤ x.created_at) ∧
      ∀ t ∈ items, t ∈ applyTypeFilter (applyUserFilter db.transactions uf) tf) ∧
    (userTokensPossibleTransactions db uid page limit items →
      items.length ≤ limit ∧
      items.Pairwise (fun x y => y.created_at ≤ x.created_at) ∧
      ∀ t ∈ items, t ∈ db.transactions.filter (fun t => t.user_id == uid)) ∧
    tokenLedgerPossibleItems db page limit uf tf (token_ledger db page limit uf tf).items ∧
    (∃ out, (get_user_tokens db uid page limit).2 = .ok out ∧
      userTokensPossibleTransactions db uid page limit out.transactions) := by
  have hmd := userMissingOrDeleted_eq_false db uid u hu hs
  refine ⟨?_, ?_, ?_, ?_⟩
  · rintro ⟨sorted, ⟨hperm, hsort⟩, heq⟩
    exact possible_page_spec _ sorted items page limit hperm hsort heq
  · rintro ⟨sorted, ⟨hperm, hsort⟩, heq⟩
    exact possible_page_spec _ sorted items page limit hperm hsort heq
  · exact ⟨sortByCreatedAtDesc (applyTypeFilter (applyUserFilter db.transactions uf) tf),
      ⟨List.mergeSort_perm _ _, sortByCreatedAtDesc_sorted _⟩, rfl⟩
  · unfold get_user_tokens
    rw [if_neg (by simp [hmd])]
    exact ⟨_, rfl,
      sortByCreatedAtDesc (db.transactions.filter (fun t => t.user_id == uid)),
      ⟨List.mergeSort_perm _ _, sortByCreatedAtDesc_sorted _⟩, rfl⟩

/-- Witness for C8 amended on the concrete four-row ledger with a timestamp
tie: the route output is an admissible page and obeys the size and order
bounds. -/
theorem C8_pagination_amended_witness :
    tokenLedgerPossibleItems dbPagination 1 2 none none
      (token_ledger dbPagination 1 2 none none).items ∧
    (token_ledger dbPagination 1 2 none none).items.length ≤ 2 ∧
    (token_ledger dbPagination 1 2 none none).items.Pairwise
      (fun x y => y.created_at ≤ x.created_at) := by
  have h := C8_pagination_amended dbPagination 1 2 none none "u1"
    { id := "u1", status := "active" } (token_ledger dbPagination 1 2 none none).items
    (by decide) (by decide) (by decide) (by decide) (by decide)
  exact ⟨h.2.2.1, (h.1 h.2.2.1).1, (h.1 h.2.2.1).2.1⟩

end TokenLedger
